import Mathlib

/-!
Shallow embedding of the local-library CRUD controllers
(src/controllers/bookController.js, genreController.js,
bookinstanceController.js) and proofs about their
validation-then-persist behaviour.

Modelling conventions:
  - The Entity Store (Mongoose collections) is a record of lists; ids are
    opaque strings. `findById` is `List.find?` on the id, `save` appends,
    `findByIdAndUpdate` maps over the list, `findByIdAndDelete` filters.
  - Form bodies are strings (form-encoded values are always strings);
    an optional date field models the falsy "absent or empty" case as "".
  - The express-validator chains are translated step by step: `trim`,
    `isLength`, `escape`, `isAlphanumeric`, `optional({values:"falsy"})`
    followed by `isISO8601`. The ISO-8601 format test lives in the external
    validator.js library, so it is an abstract parameter
    `iso : String → Bool` of the handlers that use it.
  - A handler result records the emitted response actions in order (a
    handler with a missing `return` can emit more than one), the failure
    propagated to the error boundary (`next(err)` or a thrown JS error),
    and the store after any writes.
-/

namespace LocalLibrary

/-- validator.js `escape` as invoked by every `.escape()` sanitizer:
replace `&`, `"`, `'`, `<`, `>`, `/`, `\` and the backquote by their
HTML entities. -/
def escapeChar (c : Char) : String :=
  if c = '&' then "&amp;"
  else if c = Char.ofNat 34 then "&quot;"
  else if c = Char.ofNat 39 then "&#x27;"
  else if c = '<' then "&lt;"
  else if c = '>' then "&gt;"
  else if c = '/' then "&#x2F;"
  else if c = Char.ofNat 92 then "&#x5C;"
  else if c = Char.ofNat 96 then "&#96;"
  else String.singleton c

/-- HTML-escape a whole string, character by character. -/
def escape (s : String) : String :=
  s.data.foldl (fun acc c => acc ++ escapeChar c) ""

/-- The `.trim()` sanitizer: strip leading and trailing whitespace
(defined over the character list so that it evaluates in the kernel). -/
def trimStr (s : String) : String :=
  ⟨((s.data.dropWhile Char.isWhitespace).reverse.dropWhile
      Char.isWhitespace).reverse⟩

/-- validator.js `isAlphanumeric` with the default en-US locale: non-empty
and every character in [A-Za-z0-9]. -/
def isAlphanumeric (s : String) : Bool :=
  !s.isEmpty && s.data.all (fun c => c.isAlphanum)

/-- One collected validation error: the body field it concerns and its
human-readable message. -/
structure FieldError where
  path : String
  msg : String
deriving Repr, DecidableEq

/-- Author record (models/author schema fields used by the controllers).
Dates are kept as the validated raw strings; `none` is an absent date. -/
structure Author where
  id : String
  first_name : String
  family_name : String
  date_of_birth : Option String
  date_of_death : Option String
deriving Repr, DecidableEq

/-- Genre record. -/
structure Genre where
  id : String
  name : String
deriving Repr, DecidableEq

/-- Book record; `author` and the `genre` elements are reference ids. -/
structure Book where
  id : String
  title : String
  author : String
  summary : String
  isbn : String
  genre : List String
deriving Repr, DecidableEq

/-- BookInstance record; `book` is a reference id. -/
structure BookInstance where
  id : String
  book : String
  imprint : String
  status : String
  due_back : Option String
deriving Repr, DecidableEq

/-- The Entity Store: one persistence-backed collection per entity type. -/
structure Store where
  authors : List Author
  genres : List Genre
  books : List Book
  instances : List BookInstance
deriving Repr, DecidableEq

def Store.findAuthor (st : Store) (i : String) : Option Author :=
  st.authors.find? (fun a => a.id = i)

def Store.findGenre (st : Store) (i : String) : Option Genre :=
  st.genres.find? (fun g => g.id = i)

def Store.findBook (st : Store) (i : String) : Option Book :=
  st.books.find? (fun b => b.id = i)

def Store.findInstance (st : Store) (i : String) : Option BookInstance :=
  st.instances.find? (fun bi => bi.id = i)

/-- `Book.find({ author: id })`: the dependent books of an author. -/
def Store.booksByAuthor (st : Store) (i : String) : List Book :=
  st.books.filter (fun b => b.author = i)

/-- `Book.find({ genre: id })`: the dependent books of a genre. -/
def Store.booksWithGenre (st : Store) (i : String) : List Book :=
  st.books.filter (fun b => b.genre.contains i)

/-- `BookInstance.find({ book: id })`: the dependent copies of a book. -/
def Store.instancesOfBook (st : Store) (i : String) : List BookInstance :=
  st.instances.filter (fun bi => bi.book = i)

/-- Modelled from the spec: the Mongoose model files (with their `url`
virtuals) are not under src/; the spec defines the canonical location of
an entity as its id-addressed detail URL. -/
def authorUrl (i : String) : String := "/catalog/author/" ++ i

/-- Modelled from the spec: id-addressed canonical detail location. -/
def genreUrl (i : String) : String := "/catalog/genre/" ++ i

/-- Modelled from the spec: id-addressed canonical detail location. -/
def bookUrl (i : String) : String := "/catalog/book/" ++ i

/-- Modelled from the spec: id-addressed canonical detail location. -/
def bookInstanceUrl (i : String) : String := "/catalog/bookinstance/" ++ i

/-- An entity value placed in a view's locals. -/
inductive Entity where
  | author (a : Author)
  | genre (g : Genre)
  | book (b : Book)
  | inst (bi : BookInstance)
deriving Repr, DecidableEq

/-- One response action emitted by a handler: a view render (view name,
the main entity of the locals — `none` models a null/undefined entity —
the dependent or reference entities passed along, and the `errors`
array) or a redirect. -/
inductive Act where
  | render (view : String) (entity : Option Entity) (deps : List Entity)
      (errors : List FieldError)
  | redirect (url : String)
deriving Repr, DecidableEq

/-- A failure that leaves the handler: `next(err)` with a 404 status, or
a thrown JavaScript error caught by express-async-handler and forwarded
to the global error boundary. -/
inductive Failure where
  | notFound (msg : String)
  | jsError (msg : String)
deriving Repr, DecidableEq

/-- The observable outcome of one handler invocation. -/
structure HResult where
  acts : List Act
  err : Option Failure
  store : Store
deriving Repr, DecidableEq

/-- A `.trim().isLength({min:n}).escape()` chain with message `msg` on the
`isLength` validator: the sanitized value and the collected errors. -/
def requiredField (raw : String) (minLen : Nat) (field msg : String) :
    String × List FieldError :=
  let t := trimStr raw
  let errs := if t.length < minLen then [⟨field, msg⟩] else []
  (escape t, errs)

/-- The Author name chain
`.trim().isLength({min:1}).escape().withMessage(specMsg).isAlphanumeric().withMessage(alnumMsg)`:
`isAlphanumeric` runs on the escaped value, and both validators report
(no bail), in chain order. -/
def authorNameField (raw : String) (field specMsg alnumMsg : String) :
    String × List FieldError :=
  let t := trimStr raw
  let e1 := if t.length < 1 then [(⟨field, specMsg⟩ : FieldError)] else []
  let v := escape t
  let e2 := if isAlphanumeric v then [] else [(⟨field, alnumMsg⟩ : FieldError)]
  (v, e1 ++ e2)

/-- A `.optional({values:"falsy"}).isISO8601().toDate()` chain: an empty
(falsy) raw value skips validation and is treated as absent; otherwise
the abstract library format test `iso` decides between acceptance and the
chain's error message. -/
def dateField (iso : String → Bool) (raw : String) (field msg : String) :
    Option String × List FieldError :=
  if raw = "" then (none, [])
  else if iso raw then (some raw, [])
  else (some raw, [⟨field, msg⟩])

/-- The `genre` body field of a Book form: absent, a single scalar, or a
repeated (array) value. -/
inductive GenreField where
  | absent
  | scalar (s : String)
  | arr (l : List String)
deriving Repr, DecidableEq

/-- The array-normalization middleware at the head of `book_create_post`
and `book_update_post`: absent → `[]`, scalar → one-element array
(`new Array(v)` in create, `new Array(v.toString())` in update — identical
on the string values a form body carries), array → unchanged. -/
def normalizeGenre : GenreField → List String
  | .absent => []
  | .scalar s => [s]
  | .arr l => l

/-- Body of a Book create/update form. -/
structure BookBody where
  title : String
  author : String
  summary : String
  isbn : String
  genre : GenreField
deriving Repr, DecidableEq

/-- Body of an Author create/update form ("" models an absent/empty date). -/
structure AuthorBody where
  first_name : String
  family_name : String
  date_of_birth : String
  date_of_death : String
deriving Repr, DecidableEq

/-- Body of a BookInstance create/update form. -/
structure InstanceBody where
  book : String
  imprint : String
  status : String
  due_back : String
deriving Repr, DecidableEq

/-- ASCII lowercasing, used to model the strength-2 (case-insensitive)
collation (defined over the character list so that it evaluates in the
kernel). -/
def lowerStr (s : String) : String :=
  ⟨s.data.map Char.toLower⟩

/-- `Genre.findOne({name}).collation({locale:"en", strength:2})`: the first
genre whose name matches case-insensitively. -/
def ciMatch (st : Store) (v : String) : Option Genre :=
  st.genres.find? (fun g => lowerStr g.name = lowerStr v)

/-- genreController.genre_create_post: validate the name
(trim, length ≥ 3, escape); on failure re-render the form; on success
redirect to a case-insensitive duplicate if one exists, otherwise save
and redirect to the new genre. -/
def genre_create_post (st : Store) (freshId : String) (name : String) :
    HResult :=
  let r := requiredField name 3 "name" "Genre must contain at least 3 characters"
  let genre : Genre := ⟨freshId, r.1⟩
  if r.2 ≠ [] then
    ⟨[.render "genre_form" (some (.genre genre)) [] r.2], none, st⟩
  else
    match ciMatch st r.1 with
    | some g => ⟨[.redirect (genreUrl g.id)], none, st⟩
    | none =>
        ⟨[.redirect (genreUrl freshId)], none,
          { st with genres := st.genres ++ [genre] }⟩

/-- genreController.genre_update_post: same validation and duplicate
check as create; on success update by the path id and redirect. -/
def genre_update_post (st : Store) (pathId : String) (name : String) :
    HResult :=
  let r := requiredField name 3 "name" "Genre must contain at least 3 characters"
  let updatedGenre : Genre := ⟨pathId, r.1⟩
  if r.2 ≠ [] then
    ⟨[.render "genre_form" (some (.genre updatedGenre)) [] r.2], none, st⟩
  else
    match ciMatch st r.1 with
    | some g => ⟨[.redirect (genreUrl g.id)], none, st⟩
    | none =>
        ⟨[.redirect (genreUrl pathId)], none,
          { st with genres :=
              st.genres.map (fun g => if g.id = pathId then updatedGenre else g) }⟩

/-- genreController.genre_delete_get: redirect to the list (with `return`)
when the genre is absent, otherwise render the confirmation with the
dependent books. -/
def genre_delete_get (st : Store) (pathId : String) : HResult :=
  match st.findGenre pathId with
  | none => ⟨[.redirect "/catalog/genres"], none, st⟩
  | some g =>
      ⟨[.render "genre_delete" (some (.genre g))
          ((st.booksWithGenre pathId).map .book) []], none, st⟩

/-- genreController.genre_delete_post: redirect to the list when the genre
is missing or the body/path ids differ; re-render the confirmation with
the blocking books when dependents exist; otherwise delete and redirect. -/
def genre_delete_post (st : Store) (pathId bodyId : String) : HResult :=
  match st.findGenre bodyId with
  | none => ⟨[.redirect "/catalog/genres"], none, st⟩
  | some g =>
      if bodyId ≠ pathId then ⟨[.redirect "/catalog/genres"], none, st⟩
      else
        let deps := st.booksWithGenre bodyId
        if deps.length > 0 then
          ⟨[.render "genre_delete" (some (.genre g)) (deps.map .book) []],
            none, st⟩
        else
          ⟨[.redirect "/catalog/genres"], none,
            { st with genres := st.genres.filter (fun x => x.id ≠ bodyId) }⟩

/-- genreController.genre_update_get: no absence check — the form is
rendered with whatever `findById` returned, `null` included. -/
def genre_update_get (st : Store) (pathId : String) : HResult :=
  ⟨[.render "genre_form" ((st.findGenre pathId).map .genre) [] []], none, st⟩

/-- The collected Book chain errors: title, author, summary, isbn each
`.trim().isLength({min:1}).escape()`; `genre.*` is escape-only. -/
def bookErrors (b : BookBody) : List FieldError :=
  (requiredField b.title 1 "title" "Title must not be empty").2 ++
  (requiredField b.author 1 "author" "Author must not be empty").2 ++
  (requiredField b.summary 1 "summary" "Summary must not be empty").2 ++
  (requiredField b.isbn 1 "isbn" "ISBN must not be empty").2

/-- The Book document built from the sanitized body (`new Book({...})`),
with the normalized, escaped genre array in submitted order. -/
def bookDoc (docId : String) (b : BookBody) : Book :=
  ⟨docId, escape (trimStr b.title), escape (trimStr b.author),
    escape (trimStr b.summary), escape (trimStr b.isbn),
    (normalizeGenre b.genre).map escape⟩

/-- bookController.book_create_post: normalize the genre field, validate;
on failure re-render the form with the submitted document, the reference
lists and the errors. Modelled from the spec for the success branch: the
Book model (not under src/) defines `save` but no method named `dave`, so
the source's `await book.dave()` throws a TypeError that
express-async-handler forwards to the error boundary — nothing persists. -/
def book_create_post (st : Store) (freshId : String) (b : BookBody) :
    HResult :=
  let errs := bookErrors b
  let book := bookDoc freshId b
  if errs ≠ [] then
    ⟨[.render "book_form" (some (.book book))
        (st.authors.map .author ++ st.genres.map .genre) errs], none, st⟩
  else
    ⟨[], some (.jsError "book.dave is not a function"), st⟩

/-- bookController.book_update_post: same normalization and validation;
on success `findByIdAndUpdate(params.id, book)` then redirect to the
returned document's url (a TypeError on a null return when the id is
absent; the url only involves the unchanged id otherwise). -/
def book_update_post (st : Store) (pathId : String) (b : BookBody) :
    HResult :=
  let errs := bookErrors b
  let book := bookDoc pathId b
  if errs ≠ [] then
    ⟨[.render "book_form" (some (.book book))
        (st.authors.map .author ++ st.genres.map .genre) errs], none, st⟩
  else
    match st.findBook pathId with
    | none => ⟨[], some (.jsError "Cannot read properties of null (reading url)"), st⟩
    | some _ =>
        ⟨[.redirect (bookUrl pathId)], none,
          { st with books :=
              st.books.map (fun ob => if ob.id = pathId then book else ob) }⟩

/-- bookController.book_delete_get: the `if (!book)` branch redirects but
has no `return`, so execution falls through and the confirmation render
is also emitted. -/
def book_delete_get (st : Store) (pathId : String) : HResult :=
  let r := Act.render "book_delete" ((st.findBook pathId).map .book)
    ((st.instancesOfBook pathId).map .inst) []
  match st.findBook pathId with
  | none => ⟨[.redirect "/catalog/books", r], none, st⟩
  | some _ => ⟨[r], none, st⟩

/-- bookController.book_delete_post: redirect to the list when the book is
missing or the body/path ids differ; re-render the confirmation with the
blocking copies when dependents exist; otherwise delete and redirect. -/
def book_delete_post (st : Store) (pathId bodyId : String) : HResult :=
  match st.findBook bodyId with
  | none => ⟨[.redirect "/catalog/books"], none, st⟩
  | some book =>
      if bodyId ≠ pathId then ⟨[.redirect "/catalog/books"], none, st⟩
      else
        let deps := st.instancesOfBook bodyId
        if deps.length > 0 then
          ⟨[.render "book_delete" (some (.book book)) (deps.map .inst) []],
            none, st⟩
        else
          ⟨[.redirect "/catalog/books"], none,
            { st with books := st.books.filter (fun x => x.id ≠ bodyId) }⟩

/-- bookController.book_update_get: `next(err)` with a 404 when the book
is absent, otherwise render the form with the reference lists. -/
def book_update_get (st : Store) (pathId : String) : HResult :=
  match st.findBook pathId with
  | none => ⟨[], some (.notFound "Book not found"), st⟩
  | some b =>
      ⟨[.render "book_form" (some (.book b))
          (st.authors.map .author ++ st.genres.map .genre) []], none, st⟩

/-- The collected Author chain errors, in chain order. -/
def authorErrors (iso : String → Bool) (a : AuthorBody) : List FieldError :=
  (authorNameField a.first_name "first_name" "First name must be specified."
    "First name has non-alphanumeric characters.").2 ++
  (authorNameField a.family_name "family_name" "Family name must be specified."
    "Family name has non-alphanumeric characters.").2 ++
  (dateField iso a.date_of_birth "date_of_birth" "Invalid date of birth.").2 ++
  (dateField iso a.date_of_death "date_of_death" "Invalid date of death.").2

/-- The Author document built from the sanitized body. -/
def authorDoc (iso : String → Bool) (docId : String) (a : AuthorBody) :
    Author :=
  ⟨docId,
    (authorNameField a.first_name "first_name" "First name must be specified."
      "First name has non-alphanumeric characters.").1,
    (authorNameField a.family_name "family_name" "Family name must be specified."
      "Family name has non-alphanumeric characters.").1,
    (dateField iso a.date_of_birth "date_of_birth" "Invalid date of birth.").1,
    (dateField iso a.date_of_death "date_of_death" "Invalid date of death.").1⟩

/-- bookController.author_create_post: on validation failure re-render the
form with the submitted document and the errors; on success save and
redirect to the new author. -/
def author_create_post (iso : String → Bool) (st : Store) (freshId : String)
    (a : AuthorBody) : HResult :=
  let errs := authorErrors iso a
  let author := authorDoc iso freshId a
  if errs ≠ [] then
    ⟨[.render "author_form" (some (.author author)) [] errs], none, st⟩
  else
    ⟨[.redirect (authorUrl freshId)], none,
      { st with authors := st.authors ++ [author] }⟩

/-- bookController.author_update_post: the failure branch executes
`console.log(author)` where no variable `author` is in scope (the document
is `updatedAuthor`), so a ReferenceError is thrown before any render; on
success `findByIdAndUpdate` then redirect to `updatedAuthor.url`. -/
def author_update_post (iso : String → Bool) (st : Store) (pathId : String)
    (a : AuthorBody) : HResult :=
  let errs := authorErrors iso a
  let updatedAuthor := authorDoc iso pathId a
  if errs ≠ [] then
    ⟨[], some (.jsError "author is not defined"), st⟩
  else
    ⟨[.redirect (authorUrl pathId)], none,
      { st with authors :=
          st.authors.map (fun o => if o.id = pathId then updatedAuthor else o) }⟩

/-- bookController.author_delete_get: the `if (!author)` branch redirects
but has no `return`, so the confirmation render is also emitted. -/
def author_delete_get (st : Store) (pathId : String) : HResult :=
  let r := Act.render "author_delete" ((st.findAuthor pathId).map .author)
    ((st.booksByAuthor pathId).map .book) []
  match st.findAuthor pathId with
  | none => ⟨[.redirect "/catalog/authors", r], none, st⟩
  | some _ => ⟨[r], none, st⟩

/-- bookController.author_delete_post: redirect to the list when the
author is missing or the body/path ids differ; re-render the confirmation
with the blocking books when dependents exist; otherwise delete and
redirect. -/
def author_delete_post (st : Store) (pathId bodyId : String) : HResult :=
  match st.findAuthor bodyId with
  | none => ⟨[.redirect "/catalog/authors"], none, st⟩
  | some a =>
      if bodyId ≠ pathId then ⟨[.redirect "/catalog/authors"], none, st⟩
      else
        let deps := st.booksByAuthor bodyId
        if deps.length > 0 then
          ⟨[.render "author_delete" (some (.author a)) (deps.map .book) []],
            none, st⟩
        else
          ⟨[.redirect "/catalog/authors"], none,
            { st with authors := st.authors.filter (fun x => x.id ≠ bodyId) }⟩

/-- bookController.author_update_get: redirect to the list (with `return`)
when the author is absent, otherwise render the form. -/
def author_update_get (st : Store) (pathId : String) : HResult :=
  match st.findAuthor pathId with
  | none => ⟨[.redirect "/catalog/authors"], none, st⟩
  | some a =>
      ⟨[.render "author_form" (some (.author a)) [] []], none, st⟩

/-- The collected BookInstance chain errors: `book` and `imprint` are
required, `status` is escape-only (no validator), `due_back` is an
optional ISO-8601 date with message "Invalid date.". -/
def instanceErrors (iso : String → Bool) (b : InstanceBody) :
    List FieldError :=
  (requiredField b.book 1 "book" "Book must be specified.").2 ++
  (requiredField b.imprint 1 "imprint" "Imprint must be specified.").2 ++
  (dateField iso b.due_back "due_back" "Invalid date.").2

/-- The BookInstance document built from the sanitized body. -/
def instanceDoc (iso : String → Bool) (docId : String) (b : InstanceBody) :
    BookInstance :=
  ⟨docId, escape (trimStr b.book), escape (trimStr b.imprint), escape b.status,
    (dateField iso b.due_back "due_back" "Invalid date.").1⟩

/-- bookinstanceController.bookinstance_create_post: on validation failure
re-render the form with the submitted document, the book list and the
errors; on success save and redirect to the new copy. -/
def bookinstance_create_post (iso : String → Bool) (st : Store)
    (freshId : String) (b : InstanceBody) : HResult :=
  let errs := instanceErrors iso b
  let bi := instanceDoc iso freshId b
  if errs ≠ [] then
    ⟨[.render "bookinstance_form" (some (.inst bi)) (st.books.map .book) errs],
      none, st⟩
  else
    ⟨[.redirect (bookInstanceUrl freshId)], none,
      { st with instances := st.instances ++ [bi] }⟩

/-- bookinstanceController.bookinstance_update_post: same validation; on
success `findByIdAndUpdate` then redirect to `updatedBookInstance.url`. -/
def bookinstance_update_post (iso : String → Bool) (st : Store)
    (pathId : String) (b : InstanceBody) : HResult :=
  let errs := instanceErrors iso b
  let bi := instanceDoc iso pathId b
  if errs ≠ [] then
    ⟨[.render "bookinstance_form" (some (.inst bi)) (st.books.map .book) errs],
      none, st⟩
  else
    ⟨[.redirect (bookInstanceUrl pathId)], none,
      { st with instances :=
          st.instances.map (fun o => if o.id = pathId then bi else o) }⟩

/-- bookinstanceController.bookinstance_delete_get: redirect to the list
(with `return`) when the copy is absent, otherwise render the
confirmation. -/
def bookinstance_delete_get (st : Store) (pathId : String) : HResult :=
  match st.findInstance pathId with
  | none => ⟨[.redirect "/catalog/bookinstances"], none, st⟩
  | some bi =>
      ⟨[.render "bookinstance_delete" (some (.inst bi)) [] []], none, st⟩

/-- bookinstanceController.bookinstance_delete_post: redirect to the list
when the copy is missing or the body/path ids differ; otherwise delete
unconditionally (no dependent check), then redirect to the referenced
book's url — a TypeError (after the deletion) when that book is absent. -/
def bookinstance_delete_post (st : Store) (pathId bodyId : String) :
    HResult :=
  match st.findInstance bodyId with
  | none => ⟨[.redirect "/catalog/bookinstances"], none, st⟩
  | some bi =>
      if bodyId ≠ pathId then ⟨[.redirect "/catalog/bookinstances"], none, st⟩
      else
        let st' := { st with
          instances := st.instances.filter (fun x => x.id ≠ bodyId) }
        match st.findBook bi.book with
        | none => ⟨[], some (.jsError "Cannot read properties of null (reading url)"), st'⟩
        | some b => ⟨[.redirect (bookUrl b.id)], none, st'⟩

/-- bookinstanceController.bookinstance_update_get: no absence check — on
an absent id `bookInstance.book.toString()` dereferences null and
throws. -/
def bookinstance_update_get (st : Store) (pathId : String) : HResult :=
  match st.findInstance pathId with
  | none => ⟨[], some (.jsError "Cannot read properties of null (reading book)"), st⟩
  | some bi =>
      ⟨[.render "bookinstance_form" (some (.inst bi)) (st.books.map .book) []],
        none, st⟩

/-! Helper lemmas about the validation chains. -/

lemma requiredField_path (raw : String) (n : Nat) (f m : String) :
    ∀ e ∈ (requiredField raw n f m).2, e.path = f := by
  intro e he
  unfold requiredField at he
  dsimp only at he
  split at he
  · simp only [List.mem_singleton] at he
    subst he
    rfl
  · simp at he

lemma authorNameField_path (raw f m₁ m₂ : String) :
    ∀ e ∈ (authorNameField raw f m₁ m₂).2, e.path = f := by
  intro e he
  unfold authorNameField at he
  dsimp only at he
  rcases List.mem_append.mp he with h | h
  · split at h
    · simp only [List.mem_singleton] at h
      subst h
      rfl
    · simp at h
  · split at h
    · simp at h
    · simp only [List.mem_singleton] at h
      subst h
      rfl

lemma dateField_empty (iso : String → Bool) (f m : String) :
    dateField iso "" f m = (none, []) := rfl

lemma dateField_path (iso : String → Bool) (raw f m : String) :
    ∀ e ∈ (dateField iso raw f m).2, e.path = f := by
  intro e he
  unfold dateField at he
  split at he
  · simp at he
  · split at he
    · simp at he
    · simp only [List.mem_singleton] at he
      subst he
      rfl

lemma dateField_invalid (iso : String → Bool) (raw f m : String)
    (h1 : raw ≠ "") (h2 : iso raw = false) :
    dateField iso raw f m = (some raw, [⟨f, m⟩]) := by
  unfold dateField
  rw [if_neg h1, h2]
  simp

lemma author_create_store_of_errs (iso : String → Bool) (st : Store)
    (fid : String) (a : AuthorBody) (h : authorErrors iso a ≠ []) :
    (author_create_post iso st fid a).store = st := by
  simp [author_create_post, h]

lemma bookinstance_create_store_of_errs (iso : String → Bool) (st : Store)
    (fid : String) (b : InstanceBody) (h : instanceErrors iso b ≠ []) :
    (bookinstance_create_post iso st fid b).store = st := by
  simp [bookinstance_create_post, h]

/-- C1: a Book create submission whose fields all pass validation (the
second conjunct shows the error list is empty) is not persisted and not
redirected: the success branch calls the nonexistent model method `dave`,
so a TypeError propagates to the error boundary and the store is
unchanged. -/
theorem C1_book_create_valid_not_persisted :
    book_create_post ⟨[], [], [], []⟩ "b1" ⟨"T", "a1", "S", "1", .absent⟩ =
      ⟨[], some (.jsError "book.dave is not a function"), ⟨[], [], [], []⟩⟩ ∧
    bookErrors ⟨"T", "a1", "S", "1", .absent⟩ = [] := by
  exact ⟨by decide, by decide⟩

/-- C2: an Author update submission that fails validation (empty
first_name; the first conjunct shows the collected errors) does not
re-render the form: the failure branch references the undefined variable
`author`, so a ReferenceError propagates and no render is emitted — the
store is unchanged (no persistence, the part of the claim that holds). -/
theorem C2_author_update_invalid_throws :
    authorErrors (fun _ => false) ⟨"", "Smith", "", ""⟩ =
      [⟨"first_name", "First name must be specified."⟩,
       ⟨"first_name", "First name has non-alphanumeric characters."⟩] ∧
    author_update_post (fun _ => false)
        ⟨[⟨"a1", "John", "Smith", none, none⟩], [], [], []⟩ "a1"
        ⟨"", "Smith", "", ""⟩ =
      ⟨[], some (.jsError "author is not defined"),
        ⟨[⟨"a1", "John", "Smith", none, none⟩], [], [], []⟩⟩ := by
  exact ⟨by decide, by decide⟩

/-- C8: on an absent id, the Genre delete form emits exactly one redirect,
but the Book and Author delete forms fall through their missing `return`
and emit the redirect AND the confirmation render with a null entity —
not exactly one outcome. -/
theorem C8_delete_form_absent_double_response :
    book_delete_get ⟨[], [], [], []⟩ "b1" =
      ⟨[.redirect "/catalog/books", .render "book_delete" none [] []],
        none, ⟨[], [], [], []⟩⟩ ∧
    author_delete_get ⟨[], [], [], []⟩ "a1" =
      ⟨[.redirect "/catalog/authors", .render "author_delete" none [] []],
        none, ⟨[], [], [], []⟩⟩ ∧
    genre_delete_get ⟨[], [], [], []⟩ "g1" =
      ⟨[.redirect "/catalog/genres"], none, ⟨[], [], [], []⟩⟩ := by
  exact ⟨by decide, by decide, by decide⟩

/-- C7 counterexample: on an id absent from an empty store, the Genre
update form neither fails with NotFound nor redirects — it renders the
update form with a null (absent) entity, which the claim rules out. -/
theorem C7_counterexample_genre_update_form :
    genre_update_get ⟨[], [], [], []⟩ "g1" =
      ⟨[.render "genre_form" none [] []], none, ⟨[], [], [], []⟩⟩ := by
  decide

/-- C7 amended: on an absent id the update form fails with NotFound for
Book and redirects to the list for Author, but Genre renders the form
with the null entity and BookInstance throws an unhandled TypeError. -/
theorem C7_update_form_absent_by_entity
    (st : Store) (ib ia ig ii : String)
    (h1 : st.findBook ib = none) (h2 : st.findAuthor ia = none)
    (h3 : st.findGenre ig = none) (h4 : st.findInstance ii = none) :
    book_update_get st ib = ⟨[], some (.notFound "Book not found"), st⟩ ∧
    author_update_get st ia = ⟨[.redirect "/catalog/authors"], none, st⟩ ∧
    genre_update_get st ig =
      ⟨[.render "genre_form" none [] []], none, st⟩ ∧
    bookinstance_update_get st ii =
      ⟨[], some (.jsError "Cannot read properties of null (reading book)"),
        st⟩ := by
  refine ⟨?_, ?_, ?_, ?_⟩ <;>
    simp [book_update_get, author_update_get, genre_update_get,
      bookinstance_update_get, h1, h2, h3, h4]

/-- C7 witness: the amended behaviour at a concrete absent id. -/
theorem C7_witness_update_form_absent :
    book_update_get ⟨[], [], [], []⟩ "x" =
      ⟨[], some (.notFound "Book not found"), ⟨[], [], [], []⟩⟩ ∧
    author_update_get ⟨[], [], [], []⟩ "x" =
      ⟨[.redirect "/catalog/authors"], none, ⟨[], [], [], []⟩⟩ ∧
    genre_update_get ⟨[], [], [], []⟩ "x" =
      ⟨[.render "genre_form" none [] []], none, ⟨[], [], [], []⟩⟩ ∧
    bookinstance_update_get ⟨[], [], [], []⟩ "x" =
      ⟨[], some (.jsError "Cannot read properties of null (reading book)"),
        ⟨[], [], [], []⟩⟩ :=
  C7_update_form_absent_by_entity ⟨[], [], [], []⟩ "x" "x" "x" "x"
    (by decide) (by decide) (by decide) (by decide)

/-- C3: for an existing Book, Author or Genre with matching body and path
ids, the delete POST re-renders the delete confirmation listing the
blocking dependents and leaves the store unchanged whenever dependents
exist, and deletes the entity and redirects to the list view when the
dependent count is zero. -/
theorem C3_delete_blocked_or_performed
    (st : Store) (ib ia ig : String) (b : Book) (a : Author) (g : Genre)
    (hb : st.findBook ib = some b) (ha : st.findAuthor ia = some a)
    (hg : st.findGenre ig = some g) :
    (book_delete_post st ib ib =
      if (st.instancesOfBook ib).length > 0 then
        ⟨[.render "book_delete" (some (.book b))
            ((st.instancesOfBook ib).map .inst) []], none, st⟩
      else
        ⟨[.redirect "/catalog/books"], none,
          { st with books := st.books.filter (fun x => x.id ≠ ib) }⟩) ∧
    (author_delete_post st ia ia =
      if (st.booksByAuthor ia).length > 0 then
        ⟨[.render "author_delete" (some (.author a))
            ((st.booksByAuthor ia).map .book) []], none, st⟩
      else
        ⟨[.redirect "/catalog/authors"], none,
          { st with authors := st.authors.filter (fun x => x.id ≠ ia) }⟩) ∧
    (genre_delete_post st ig ig =
      if (st.booksWithGenre ig).length > 0 then
        ⟨[.render "genre_delete" (some (.genre g))
            ((st.booksWithGenre ig).map .book) []], none, st⟩
      else
        ⟨[.redirect "/catalog/genres"], none,
          { st with genres := st.genres.filter (fun x => x.id ≠ ig) }⟩) := by
  refine ⟨?_, ?_, ?_⟩ <;>
    simp only [book_delete_post, author_delete_post, genre_delete_post,
      hb, ha, hg, ne_eq, not_true_eq_false, if_false, ite_not]

/-- C3 witness: in a store where the author and the genre each have one
dependent book and the book has no copies, the author and genre deletes
are blocked (store unchanged) and the book delete goes through. -/
theorem C3_witness_delete :
    book_delete_post
        ⟨[⟨"a1", "J", "S", none, none⟩], [⟨"g1", "Fantasy"⟩],
          [⟨"b1", "T", "a1", "S", "1", ["g1"]⟩], []⟩ "b1" "b1" =
      ⟨[.redirect "/catalog/books"], none,
        ⟨[⟨"a1", "J", "S", none, none⟩], [⟨"g1", "Fantasy"⟩], [], []⟩⟩ ∧
    author_delete_post
        ⟨[⟨"a1", "J", "S", none, none⟩], [⟨"g1", "Fantasy"⟩],
          [⟨"b1", "T", "a1", "S", "1", ["g1"]⟩], []⟩ "a1" "a1" =
      ⟨[.render "author_delete" (some (.author ⟨"a1", "J", "S", none, none⟩))
          [.book ⟨"b1", "T", "a1", "S", "1", ["g1"]⟩] [] ], none,
        ⟨[⟨"a1", "J", "S", none, none⟩], [⟨"g1", "Fantasy"⟩],
          [⟨"b1", "T", "a1", "S", "1", ["g1"]⟩], []⟩⟩ ∧
    genre_delete_post
        ⟨[⟨"a1", "J", "S", none, none⟩], [⟨"g1", "Fantasy"⟩],
          [⟨"b1", "T", "a1", "S", "1", ["g1"]⟩], []⟩ "g1" "g1" =
      ⟨[.render "genre_delete" (some (.genre ⟨"g1", "Fantasy"⟩))
          [.book ⟨"b1", "T", "a1", "S", "1", ["g1"]⟩] [] ], none,
        ⟨[⟨"a1", "J", "S", none, none⟩], [⟨"g1", "Fantasy"⟩],
          [⟨"b1", "T", "a1", "S", "1", ["g1"]⟩], []⟩⟩ :=
  C3_delete_blocked_or_performed
    ⟨[⟨"a1", "J", "S", none, none⟩], [⟨"g1", "Fantasy"⟩],
      [⟨"b1", "T", "a1", "S", "1", ["g1"]⟩], []⟩ "b1" "a1" "g1"
    ⟨"b1", "T", "a1", "S", "1", ["g1"]⟩ ⟨"a1", "J", "S", none, none⟩
    ⟨"g1", "Fantasy"⟩ (by decide) (by decide) (by decide)

/-- C4: for a Genre create whose trimmed name passes validation, a
case-insensitive duplicate short-circuits to a redirect at the existing
genre with nothing persisted, and only with no such match is the new
genre saved; concretely, creating "Fiction" and then "FICTION" leaves
exactly one persisted genre, named "Fiction", the second call answering
with a redirect to the first genre's location. -/
theorem C4_genre_create_ci_dedup
    (st : Store) (fid name : String) (h : 3 ≤ (trimStr name).length) :
    (∀ g, ciMatch st (escape (trimStr name)) = some g →
      genre_create_post st fid name =
        ⟨[.redirect (genreUrl g.id)], none, st⟩) ∧
    (ciMatch st (escape (trimStr name)) = none →
      genre_create_post st fid name =
        ⟨[.redirect (genreUrl fid)], none,
          { st with genres := st.genres ++ [⟨fid, escape (trimStr name)⟩] }⟩) ∧
    ((genre_create_post ⟨[], [], [], []⟩ "g1" "Fiction").store.genres =
        [⟨"g1", "Fiction"⟩] ∧
      genre_create_post
          (genre_create_post ⟨[], [], [], []⟩ "g1" "Fiction").store
          "g2" "FICTION" =
        ⟨[.redirect (genreUrl "g1")], none,
          (genre_create_post ⟨[], [], [], []⟩ "g1" "Fiction").store⟩) := by
  have hr : (requiredField name 3 "name"
      "Genre must contain at least 3 characters").2 = [] := by
    simp [requiredField, Nat.not_lt.mpr h]
  have hv : (requiredField name 3 "name"
      "Genre must contain at least 3 characters").1 = escape (trimStr name) := rfl
  refine ⟨?_, ?_, by decide, by decide⟩
  · intro g hg
    simp only [genre_create_post, hr, hv, hg, ne_eq, not_true_eq_false,
      ite_false, if_false]
  · intro hg
    simp only [genre_create_post, hr, hv, hg, ne_eq, not_true_eq_false,
      ite_false, if_false]

/-- C4 witness: a create whose name differs from an existing genre only
by case and surrounding whitespace redirects to the existing genre. -/
theorem C4_witness_genre_dedup :
    genre_create_post ⟨[], [⟨"g1", "Drama"⟩], [], []⟩ "g9" "  DRAMA  " =
      ⟨[.redirect (genreUrl "g1")], none, ⟨[], [⟨"g1", "Drama"⟩], [], []⟩⟩ :=
  (C4_genre_create_ci_dedup ⟨[], [⟨"g1", "Drama"⟩], [], []⟩ "g9" "  DRAMA  "
    (by decide)).1 ⟨"g1", "Drama"⟩ (by decide)

/-- C5 counterexample: a syntactically invalid Author date_of_birth
yields the error message "Invalid date of birth.", not "Invalid date." as
the claim states (the form is re-rendered and nothing persists). -/
theorem C5_counterexample_author_date_message :
    author_create_post (fun _ => false) ⟨[], [], [], []⟩ "a1"
        ⟨"John", "Smith", "notadate", ""⟩ =
      ⟨[.render "author_form"
          (some (.author ⟨"a1", "John", "Smith", some "notadate", none⟩)) []
          [⟨"date_of_birth", "Invalid date of birth."⟩]],
        none, ⟨[], [], [], []⟩⟩ ∧
    (⟨"date_of_birth", "Invalid date."⟩ : FieldError) ∉
      authorErrors (fun _ => false) ⟨"John", "Smith", "notadate", ""⟩ := by
  exact ⟨by decide, by decide⟩

/-- C5 amended: an empty optional date field passes validation (no error
for that field) and is stored as absent; a syntactically invalid value
yields a validation error for that field — "Invalid date." for
BookInstance due_back but "Invalid date of birth."/"Invalid date of
death." for the Author dates — and the store is unchanged (no
persistence). -/
theorem C5_optional_dates
    (iso : String → Bool) (st : Store) (fid : String)
    (a : AuthorBody) (b : InstanceBody) :
    (a.date_of_birth = "" →
      (∀ m, (⟨"date_of_birth", m⟩ : FieldError) ∉ authorErrors iso a) ∧
      (authorDoc iso fid a).date_of_birth = none) ∧
    (a.date_of_death = "" →
      (∀ m, (⟨"date_of_death", m⟩ : FieldError) ∉ authorErrors iso a) ∧
      (authorDoc iso fid a).date_of_death = none) ∧
    (b.due_back = "" →
      (∀ m, (⟨"due_back", m⟩ : FieldError) ∉ instanceErrors iso b) ∧
      (instanceDoc iso fid b).due_back = none) ∧
    (a.date_of_birth ≠ "" → iso a.date_of_birth = false →
      (⟨"date_of_birth", "Invalid date of birth."⟩ : FieldError) ∈
        authorErrors iso a ∧
      (author_create_post iso st fid a).store = st) ∧
    (a.date_of_death ≠ "" → iso a.date_of_death = false →
      (⟨"date_of_death", "Invalid date of death."⟩ : FieldError) ∈
        authorErrors iso a ∧
      (author_create_post iso st fid a).store = st) ∧
    (b.due_back ≠ "" → iso b.due_back = false →
      (⟨"due_back", "Invalid date."⟩ : FieldError) ∈ instanceErrors iso b ∧
      (bookinstance_create_post iso st fid b).store = st) := by
  refine ⟨?_, ?_, ?_, ?_, ?_, ?_⟩
  · intro h
    refine ⟨?_, by unfold authorDoc; rw [h, dateField_empty]⟩
    intro m hm
    unfold authorErrors at hm
    rw [h, dateField_empty] at hm
    rcases List.mem_append.mp hm with h1 | h1
    · rcases List.mem_append.mp h1 with h2 | h2
      · rcases List.mem_append.mp h2 with h3 | h3
        · have := authorNameField_path a.first_name "first_name"
            "First name must be specified."
            "First name has non-alphanumeric characters." _ h3
          simp at this
        · have := authorNameField_path a.family_name "family_name"
            "Family name must be specified."
            "Family name has non-alphanumeric characters." _ h3
          simp at this
      · simp at h2
    · have := dateField_path iso a.date_of_death "date_of_death"
        "Invalid date of death." _ h1
      simp at this
  · intro h
    refine ⟨?_, by unfold authorDoc; rw [h, dateField_empty]⟩
    intro m hm
    unfold authorErrors at hm
    rw [h, dateField_empty] at hm
    rcases List.mem_append.mp hm with h1 | h1
    · rcases List.mem_append.mp h1 with h2 | h2
      · rcases List.mem_append.mp h2 with h3 | h3
        · have := authorNameField_path a.first_name "first_name"
            "First name must be specified."
            "First name has non-alphanumeric characters." _ h3
          simp at this
        · have := authorNameField_path a.family_name "family_name"
            "Family name must be specified."
            "Family name has non-alphanumeric characters." _ h3
          simp at this
      · have := dateField_path iso a.date_of_birth "date_of_birth"
          "Invalid date of birth." _ h2
        simp at this
    · simp at h1
  · intro h
    refine ⟨?_, by unfold instanceDoc; rw [h, dateField_empty]⟩
    intro m hm
    unfold instanceErrors at hm
    rw [h, dateField_empty] at hm
    rcases List.mem_append.mp hm with h1 | h1
    · rcases List.mem_append.mp h1 with h2 | h2
      · have := requiredField_path b.book 1 "book"
          "Book must be specified." _ h2
        simp at this
      · have := requiredField_path b.imprint 1 "imprint"
          "Imprint must be specified." _ h2
        simp at this
    · simp at h1
  · intro h1 h2
    have hmem : (⟨"date_of_birth", "Invalid date of birth."⟩ : FieldError) ∈
        authorErrors iso a := by
      unfold authorErrors
      rw [dateField_invalid iso a.date_of_birth _ _ h1 h2]
      simp
    exact ⟨hmem, author_create_store_of_errs iso st fid a
      (List.ne_nil_of_mem hmem)⟩
  · intro h1 h2
    have hmem : (⟨"date_of_death", "Invalid date of death."⟩ : FieldError) ∈
        authorErrors iso a := by
      unfold authorErrors
      rw [dateField_invalid iso a.date_of_death _ _ h1 h2]
      simp
    exact ⟨hmem, author_create_store_of_errs iso st fid a
      (List.ne_nil_of_mem hmem)⟩
  · intro h1 h2
    have hmem : (⟨"due_back", "Invalid date."⟩ : FieldError) ∈
        instanceErrors iso b := by
      unfold instanceErrors
      rw [dateField_invalid iso b.due_back _ _ h1 h2]
      simp
    exact ⟨hmem, bookinstance_create_store_of_errs iso st fid b
      (List.ne_nil_of_mem hmem)⟩

/-- C5 witness: an invalid due_back produces "Invalid date." and leaves
the store unchanged, and an empty due_back is stored as absent. -/
theorem C5_witness_dates :
    ((⟨"due_back", "Invalid date."⟩ : FieldError) ∈
        instanceErrors (fun _ => false) ⟨"B", "I", "", "bad"⟩ ∧
      (bookinstance_create_post (fun _ => false) ⟨[], [], [], []⟩ "i1"
        ⟨"B", "I", "", "bad"⟩).store = ⟨[], [], [], []⟩) ∧
    (instanceDoc (fun _ => false) "i1" ⟨"B", "I", "", ""⟩).due_back = none :=
  ⟨(C5_optional_dates (fun _ => false) ⟨[], [], [], []⟩ "i1"
      ⟨"J", "S", "", ""⟩ ⟨"B", "I", "", "bad"⟩).2.2.2.2.2 (by decide) rfl,
    ((C5_optional_dates (fun _ => false) ⟨[], [], [], []⟩ "i1"
      ⟨"J", "S", "", ""⟩ ⟨"B", "I", "", ""⟩).2.2.1 rfl).2⟩

/-- C6: the genre body field is normalized to an array (absent → empty,
scalar → one-element, array → unchanged) before validation and
persistence, and an update stores genre reference sets of size 0, 1 and
3 in submitted order; but a valid create, with the normalized genre list
built into the document, fails at the persist call (`book.dave()`
TypeError) and stores nothing. -/
theorem C6_genre_field_normalization :
    (normalizeGenre .absent = [] ∧
      (∀ s, normalizeGenre (.scalar s) = [s]) ∧
      (∀ l, normalizeGenre (.arr l) = l)) ∧
    ((book_update_post ⟨[], [], [⟨"b1", "t", "a", "s", "i", ["old"]⟩], []⟩
        "b1" ⟨"T", "a1", "S", "1", .absent⟩).store.books =
      [⟨"b1", "T", "a1", "S", "1", []⟩] ∧
     (book_update_post ⟨[], [], [⟨"b1", "t", "a", "s", "i", ["old"]⟩], []⟩
        "b1" ⟨"T", "a1", "S", "1", .scalar "g1"⟩).store.books =
      [⟨"b1", "T", "a1", "S", "1", ["g1"]⟩] ∧
     (book_update_post ⟨[], [], [⟨"b1", "t", "a", "s", "i", ["old"]⟩], []⟩
        "b1" ⟨"T", "a1", "S", "1", .arr ["g1", "g2", "g3"]⟩).store.books =
      [⟨"b1", "T", "a1", "S", "1", ["g1", "g2", "g3"]⟩]) ∧
    ((bookDoc "b9" ⟨"T", "a1", "S", "1", .arr ["g1", "g2", "g3"]⟩).genre =
      ["g1", "g2", "g3"] ∧
     book_create_post ⟨[], [], [], []⟩ "b9"
        ⟨"T", "a1", "S", "1", .arr ["g1", "g2", "g3"]⟩ =
      ⟨[], some (.jsError "book.dave is not a function"),
        ⟨[], [], [], []⟩⟩) := by
  exact ⟨⟨rfl, fun s => rfl, fun l => rfl⟩,
    ⟨by decide, by decide, by decide⟩, ⟨by decide, by decide⟩⟩

/-- C6 witness: the normalization at a concrete scalar value. -/
theorem C6_witness_normalization : normalizeGenre (.scalar "g7") = ["g7"] :=
  C6_genre_field_normalization.1.2.1 "g7"

/-- C9 counterexample: deleting an existing BookInstance whose referenced
Book is absent does delete the instance but does not redirect: the
handler throws a TypeError dereferencing the null book. -/
theorem C9_counterexample_dangling_book :
    bookinstance_delete_post
        ⟨[], [], [], [⟨"i1", "b404", "imp", "Available", none⟩]⟩ "i1" "i1" =
      ⟨[], some (.jsError "Cannot read properties of null (reading url)"),
        ⟨[], [], [], []⟩⟩ := by
  decide

/-- C9 amended: for an existing BookInstance with matching ids, the
delete POST removes the instance unconditionally (no dependent check);
it then redirects to the referenced Book's detail location when that
book exists, and throws an unhandled TypeError (after the deletion) when
it does not. -/
theorem C9_instance_delete_unconditional
    (st : Store) (i : String) (bi : BookInstance)
    (h : st.findInstance i = some bi) :
    ((bookinstance_delete_post st i i).store.instances =
      st.instances.filter (fun x => x.id ≠ i)) ∧
    (∀ b, st.findBook bi.book = some b →
      bookinstance_delete_post st i i =
        ⟨[.redirect (bookUrl b.id)], none,
          { st with instances := st.instances.filter (fun x => x.id ≠ i) }⟩) ∧
    (st.findBook bi.book = none →
      bookinstance_delete_post st i i =
        ⟨[], some (.jsError "Cannot read properties of null (reading url)"),
          { st with instances :=
              st.instances.filter (fun x => x.id ≠ i) }⟩) := by
  refine ⟨?_, ?_, ?_⟩
  · cases hb : st.findBook bi.book <;>
      simp [bookinstance_delete_post, h, hb]
  · intro b hb
    simp [bookinstance_delete_post, h, hb]
  · intro hb
    simp [bookinstance_delete_post, h, hb]

/-- C9 witness: the delete removes the copy and redirects to the
referenced book when it exists. -/
theorem C9_witness_instance_delete :
    bookinstance_delete_post
        ⟨[], [], [⟨"b1", "T", "a1", "S", "1", []⟩],
          [⟨"i1", "b1", "imp", "Available", none⟩]⟩ "i1" "i1" =
      ⟨[.redirect (bookUrl "b1")], none,
        ⟨[], [], [⟨"b1", "T", "a1", "S", "1", []⟩], []⟩⟩ :=
  (C9_instance_delete_unconditional
    ⟨[], [], [⟨"b1", "T", "a1", "S", "1", []⟩],
      [⟨"i1", "b1", "imp", "Available", none⟩]⟩ "i1"
    ⟨"i1", "b1", "imp", "Available", none⟩ (by decide)).2.1
    ⟨"b1", "T", "a1", "S", "1", []⟩ (by decide)

/-- C10: BookInstance create and update never produce a validation error
for the status field (no error in the collected list carries path
"status", for any submission), and the persisted document's status is
exactly the submitted string after markup escaping; when the other
fields pass validation the document is stored as such. -/
theorem C10_status_never_validated
    (iso : String → Bool) (st : Store) (fid pid : String)
    (b : InstanceBody) :
    (∀ e ∈ instanceErrors iso b, ¬ e.path = "status") ∧
    (instanceDoc iso fid b).status = escape b.status ∧
    (instanceErrors iso b = [] →
      bookinstance_create_post iso st fid b =
        ⟨[.redirect (bookInstanceUrl fid)], none,
          { st with instances := st.instances ++ [instanceDoc iso fid b] }⟩ ∧
      bookinstance_update_post iso st pid b =
        ⟨[.redirect (bookInstanceUrl pid)], none,
          { st with instances := (st.instances.map
              (fun o => if o.id = pid then instanceDoc iso pid b else o)) }⟩) := by
  refine ⟨?_, rfl, ?_⟩
  · intro e he
    unfold instanceErrors at he
    rcases List.mem_append.mp he with h1 | h1
    · rcases List.mem_append.mp h1 with h2 | h2
      · rw [requiredField_path b.book 1 "book" "Book must be specified." _ h2]
        decide
      · rw [requiredField_path b.imprint 1 "imprint"
          "Imprint must be specified." _ h2]
        decide
    · rw [dateField_path iso b.due_back "due_back" "Invalid date." _ h1]
      decide
  · intro h
    exact ⟨by simp [bookinstance_create_post, h],
      by simp [bookinstance_update_post, h]⟩

/-- C10 witness: an empty status passes validation and is persisted as
the empty string. -/
theorem C10_witness_empty_status :
    bookinstance_create_post (fun _ => false) ⟨[], [], [], []⟩ "i1"
        ⟨"B", "I", "", ""⟩ =
      ⟨[.redirect (bookInstanceUrl "i1")], none,
        ⟨[], [], [], [⟨"i1", "B", "I", "", none⟩]⟩⟩ :=
  ((C10_status_never_validated (fun _ => false) ⟨[], [], [], []⟩ "i1" "i1"
    ⟨"B", "I", "", ""⟩).2.2 (by decide)).1

end LocalLibrary
